import Mathlib

/-!
# WebGuardian threat-analysis engine: a shallow embedding

This file embeds the decision logic of the WebGuardian extension's
threat-analysis engine (background service worker `analyzeURL`,
`detectPhishing`, `hasCharacterSubstitution`, `analyzeURLStructure`,
`analyzeRequest`, `isKnownTracker`, and the content script's
`monitorCPUUsage` loop) as executable Lean definitions, and proves or
refutes the specified properties about them.

Modelling conventions:
* JavaScript strings here are ASCII (URLs, hostnames, pattern literals),
  so Lean `String`/`List Char` operations coincide with JS semantics
  (`toLowerCase`, `.length`, `includes`, `startsWith`, `endsWith`).
* The unanchored JS regexes used by the engine are all of the shapes
  "literal", "/lit1.*lit2/" or "/^\d+\.\d+\.\d+\.\d+$/"; on the
  newline-free strings produced by a URL parser these are equivalent to
  substring containment, ordered containment, and a dotted-digit-groups
  test, which is how they are embedded below.
* `new URL(s)` is host-platform behaviour, not engine code: it is
  modelled by an `Option URLParts` argument (`none` = the constructor
  threw).  `analyzeURL` wraps its whole body in try/catch, so a `none`
  parse yields a normal "no result" return; `analyzeRequest` has no
  try/catch around its parse, so a `none` parse is modelled as
  `Except.error` (the exception propagates to the caller).
* Wall-clock sampling in `monitorCPUUsage` is modelled, as the design
  notes direct, by the per-window state machine the loop implements:
  the input is the list of iteration counts observed at each elapsed
  one-second window.
-/

/-! ## String primitives (List-of-Char based, kernel-evaluable) -/

/-- `isPre pat s`: is `pat` a prefix of `s`? -/
def isPre : List Char → List Char → Bool
  | [], _ => true
  | _ :: _, [] => false
  | a :: as, b :: bs => a == b && isPre as bs

/-- `hasSubList pat s`: does `pat` occur as a contiguous sublist of `s`?
(JS `s.includes(pat)`.) -/
def hasSubList (pat : List Char) : List Char → Bool
  | [] => isPre pat []
  | c :: rest => isPre pat (c :: rest) || hasSubList pat rest

/-- JS `s.includes(pat)`. -/
def strContains (s pat : String) : Bool :=
  hasSubList pat.data s.data

/-- The suffix of `s` that follows the first occurrence of `pat`,
if `pat` occurs in `s`. -/
def afterFirst (pat : List Char) : List Char → Option (List Char)
  | [] => if isPre pat [] then some [] else none
  | c :: rest =>
      if isPre pat (c :: rest) then some ((c :: rest).drop pat.length)
      else afterFirst pat rest

/-- JS regex `/pat1.*pat2/.test(s)` for literal `pat1`, `pat2` on a
newline-free subject: some occurrence of `pat1` is followed by an
occurrence of `pat2`.  (Equivalently: the first occurrence of `pat1` is,
since a later occurrence sees a shorter suffix.) -/
def strInOrder (s pat1 pat2 : String) : Bool :=
  match afterFirst pat1.data s.data with
  | some rest => hasSubList pat2.data rest
  | none => false

/-- JS `s.startsWith(pat)`. -/
def strStartsWith (s pat : String) : Bool :=
  isPre pat.data s.data

/-- JS `s.endsWith(pat)`. -/
def strEndsWith (s pat : String) : Bool :=
  isPre pat.data.reverse s.data.reverse

/-- JS `s.toLowerCase()` (ASCII). -/
def strLower (s : String) : String :=
  ⟨s.data.map Char.toLower⟩

/-- JS `s.split(".")` as character groups: splits at every `'.'`,
keeping empty groups (so `[] ↦ [[]]`, matching JS `"".split(".")`). -/
def splitOnDot : List Char → List (List Char)
  | [] => [[]]
  | c :: rest =>
      let r := splitOnDot rest
      if c == '.' then [] :: r
      else
        match r with
        | [] => [[c]]
        | g :: gs => (c :: g) :: gs

/-- JS `/^\d+\.\d+\.\d+\.\d+$/.test(s)`: exactly four dot-separated
groups, each a nonempty run of ASCII digits. -/
def isIPv4Literal (s : String) : Bool :=
  match splitOnDot s.data with
  | [a, b, c, d] =>
      !a.isEmpty && a.all Char.isDigit &&
      !b.isEmpty && b.all Char.isDigit &&
      !c.isEmpty && c.all Char.isDigit &&
      !d.isEmpty && d.all Char.isDigit
  | _ => false

/-! ## Data model -/

/-- The fields of a successfully parsed `URL` object that the engine
reads: `href` (serialized URL), `hostname`, `pathname`. -/
structure URLParts where
  href : String
  hostname : String
  pathname : String
deriving Repr, DecidableEq

/-- Threat kinds produced by the URL-evaluation pipeline
(`analyzeURL`): the source's strings `'malicious_domain'`,
`'phishing'`, `'suspicious_url'`. -/
inductive ThreatType where
  | malicious_domain
  | phishing
  | suspicious_url
deriving Repr, DecidableEq, BEq

/-- Threat severities. -/
inductive Severity where
  | low
  | medium
  | high
  | critical
deriving Repr, DecidableEq, BEq

/-- A detected threat, as pushed onto `analysis.threats`. -/
structure Threat where
  type : ThreatType
  severity : Severity
  description : String
deriving Repr, DecidableEq

/-- The `analysis` record built by `analyzeURL` (the `timestamp` field,
ambient wall-clock data, is omitted). -/
structure Analysis where
  url : String
  domain : String
  threats : List Threat
  riskScore : Nat
  trackersBlocked : Nat
  isSecure : Bool
deriving Repr, DecidableEq

/-- The extension settings object. -/
structure Settings where
  realTimeProtection : Bool
  blockMaliciousSites : Bool
  blockPhishing : Bool
  blockTrackers : Bool
  blockCryptominers : Bool
  showWarnings : Bool
  autoScan : Bool
  notificationLevel : String
  scanFrequency : String
  whitelistMode : Bool
deriving Repr, DecidableEq

/-- The five statistics counters. -/
structure Stats where
  sitesScanned : Nat
  threatsBlocked : Nat
  trackersBlocked : Nat
  malwareDetected : Nat
  phishingBlocked : Nat
deriving Repr, DecidableEq

/-- The constructor defaults of `WebGuardianBackground.settings`. -/
def defaultSettings : Settings :=
  { realTimeProtection := true
    blockMaliciousSites := true
    blockPhishing := true
    blockTrackers := true
    blockCryptominers := true
    showWarnings := true
    autoScan := true
    notificationLevel := "medium"
    scanFrequency := "realtime"
    whitelistMode := false }

/-- The constructor defaults of `WebGuardianBackground.stats`. -/
def initialStats : Stats :=
  { sitesScanned := 0, threatsBlocked := 0, trackersBlocked := 0
    malwareDetected := 0, phishingBlocked := 0 }

/-! ## Pattern sets -/

/-- `this.maliciousDomains`. -/
def maliciousDomains : List String :=
  ["malicious-example.com", "phishing-site.net", "fake-bank.org", "scam-site.biz"]

/-- `this.trackerDomains`. -/
def trackerDomains : List String :=
  ["google-analytics.com", "doubleclick.net", "facebook.com",
   "googletagmanager.com", "googlesyndication.com", "amazon-adsystem.com"]

/-- The watched brand tokens of `detectPhishing`. -/
def commonDomains : List String :=
  ["paypal", "microsoft", "google", "facebook", "amazon", "apple"]

/-- The character-substitution map of `hasCharacterSubstitution`,
in object-literal iteration order. -/
def substitutions : List (Char × Char) :=
  [('o', '0'), ('i', '1'), ('l', '1'), ('e', '3'), ('a', '@'), ('s', '$')]

/-- The suspicious-TLD list of `detectPhishing`. -/
def suspiciousTLDs : List String :=
  [".tk", ".ml", ".ga", ".cf", ".cc"]

/-- The URL-shortener list of `detectPhishing`. -/
def shorteners : List String :=
  ["bit.ly", "tinyurl.com", "t.co", "short.link"]

/-! ## Phishing detector -/

/-- JS `target.replace(new RegExp(char, 'g'), sub)` for a one-character
pattern and one-character replacement. -/
def replaceChar (t : String) (c sub : Char) : String :=
  ⟨t.data.map fun ch => if ch == c then sub else ch⟩

/-- The loop body of `hasCharacterSubstitution`: apply the substitutions
cumulatively to `target`, returning true as soon as the partially
substituted target occurs in `domain`. -/
def hasCharSubLoop (domain : String) : List (Char × Char) → String → Bool
  | [], _ => false
  | (c, sub) :: rest, t =>
      let t2 := replaceChar t c sub
      if strContains domain t2 then true else hasCharSubLoop domain rest t2

/-- `hasCharacterSubstitution(domain, target)`. -/
def hasCharacterSubstitution (domain target : String) : Bool :=
  hasCharSubLoop domain substitutions target

/-- Result record of `detectPhishing`. -/
structure PhishResult where
  isPhishing : Bool
  reason : String
deriving Repr, DecidableEq

/-- The brand-impersonation loop of `detectPhishing`: the first watched
brand `cd` with `domain.includes(cd) && !domain.includes(cd + ".com")`
and a character-substitution hit (first match breaks the loop). -/
def brandCheck (domain : String) : Option String :=
  commonDomains.find? fun cd =>
    strContains domain cd && !strContains domain (cd ++ ".com") &&
      hasCharacterSubstitution domain cd

/-- `detectPhishing(domain, urlObj)` (the `urlObj` parameter is unused
in the source body).  Later sub-checks overwrite the result of earlier
ones, exactly as the sequential assignments do. -/
def detectPhishing (domain : String) : PhishResult :=
  let r : PhishResult :=
    match brandCheck domain with
    | some cd => ⟨true, "Possible phishing attempt targeting " ++ cd⟩
    | none => ⟨false, ""⟩
  let r : PhishResult :=
    if suspiciousTLDs.any (fun tld => strEndsWith domain tld) then
      ⟨true, "Uses suspicious top-level domain often associated with phishing"⟩
    else r
  let r : PhishResult :=
    if shorteners.any (fun sh => strContains domain sh) then
      ⟨true, "URL shortener detected - may hide real destination"⟩
    else r
  r

/-! ## URL structural analyzer -/

/-- Result record of `analyzeURLStructure`. -/
structure StructResult where
  suspicious : Bool
  reason : String
  score : Nat
deriving Repr, DecidableEq

/-- The suspicious-path test of `analyzeURLStructure`: the four
case-insensitive path regexes `/login.*secure/i`, `/verify.*account/i`,
`/update.*payment/i`, `/suspended/i`. -/
def hasSuspiciousPath (path : String) : Bool :=
  let p := strLower path
  strInOrder p "login" "secure" || strInOrder p "verify" "account" ||
    strInOrder p "update" "payment" || strContains p "suspended"

/-- `analyzeURLStructure(urlObj)`.  The IPv4-literal check returns
immediately; the remaining checks are additive, each overwriting the
`reason` field. -/
def analyzeURLStructure (u : URLParts) : StructResult :=
  if isIPv4Literal u.hostname then
    ⟨true, "Uses IP address instead of domain name", 40⟩
  else
    let r : StructResult := ⟨false, "", 0⟩
    let r : StructResult :=
      if decide (u.href.length > 100) then ⟨true, "Unusually long URL", 20⟩ else r
    let r : StructResult :=
      if decide ((splitOnDot u.hostname.data).length > 4) then
        ⟨true, "Too many subdomains", r.score + 25⟩
      else r
    let r : StructResult :=
      if hasSuspiciousPath u.pathname then
        ⟨true, "Suspicious path pattern detected", r.score + 30⟩
      else r
    r

/-! ## URL evaluation (`analyzeURL`) -/

/-- `analyzeURL(url, tabId)`.  The whole body runs inside try/catch, so
a failed `new URL(url)` (modelled by `parsed = none`) is caught: the
stats are unchanged and no analysis is produced.  Host-side effects
(storage, badge, warning modal) are outside the engine; the function
returns the updated stats and the produced analysis, if any. -/
def analyzeURL (s : Settings) (st : Stats) (url : String)
    (parsed : Option URLParts) : Stats × Option Analysis :=
  match parsed with
  | none => (st, none)
  | some u =>
    if strStartsWith url "chrome://" || strStartsWith url "chrome-extension://" then
      (st, none)
    else
      let domain := strLower u.hostname
      let st1 : Stats := { st with sitesScanned := st.sitesScanned + 1 }
      let malicious := maliciousDomains.contains domain
      let threats1 : List Threat :=
        if malicious then
          [⟨ThreatType.malicious_domain, Severity.high, "Known malicious domain: " ++ domain⟩]
        else []
      let risk1 : Nat := if malicious then 80 else 0
      let st2 : Stats :=
        if malicious then
          { st1 with malwareDetected := st1.malwareDetected + 1,
                     threatsBlocked := st1.threatsBlocked + 1 }
        else st1
      let ph := detectPhishing domain
      let threats2 : List Threat :=
        if ph.isPhishing then threats1 ++ [⟨ThreatType.phishing, Severity.high, ph.reason⟩]
        else threats1
      let risk2 : Nat := if ph.isPhishing then risk1 + 70 else risk1
      let st3 : Stats :=
        if ph.isPhishing then
          { st2 with phishingBlocked := st2.phishingBlocked + 1,
                     threatsBlocked := st2.threatsBlocked + 1 }
        else st2
      let uc := analyzeURLStructure u
      let threats3 : List Threat :=
        if uc.suspicious then threats2 ++ [⟨ThreatType.suspicious_url, Severity.medium, uc.reason⟩]
        else threats2
      let risk3 : Nat := if uc.suspicious then risk2 + uc.score else risk2
      (st3, some { url := url, domain := domain, threats := threats3,
                   riskScore := risk3, trackersBlocked := 0,
                   isSecure := decide (risk3 < 30) })

/-- The threats of the produced analysis (empty when no analysis was
produced). -/
def threatsOf (r : Stats × Option Analysis) : List Threat :=
  match r.2 with
  | some a => a.threats
  | none => []

/-- The risk score of the produced analysis (0 when no analysis was
produced). -/
def riskOf (r : Stats × Option Analysis) : Nat :=
  match r.2 with
  | some a => a.riskScore
  | none => 0

/-! ## Outbound-request classification (`analyzeRequest`) -/

/-- `isKnownTracker(domain)`: the eight unanchored tracker regexes. -/
def isKnownTracker (domain : String) : Bool :=
  strContains domain "google-analytics" || strContains domain "googletagmanager" ||
    strContains domain "doubleclick" || strInOrder domain "facebook.com" "/tr" ||
    strContains domain "amazon-adsystem" || strContains domain "googlesyndication" ||
    strContains domain "scorecardresearch" || strContains domain "quantserve"

/-- `analyzeRequest(details)`.  `new URL(details.url)` is evaluated
outside any try/catch, so a failed parse (`parsed = none`) is an
uncaught exception, modelled as `Except.error`.  On success the result
is the updated stats and the block decision (`true` = request
cancelled). -/
def analyzeRequest (s : Settings) (st : Stats) (url : String)
    (parsed : Option URLParts) : Except String (Stats × Bool) :=
  match parsed with
  | none => Except.error "Invalid URL"
  | some u =>
    let domain := strLower u.hostname
    if s.blockTrackers && (trackerDomains.contains domain || isKnownTracker domain) then
      Except.ok ({ st with trackersBlocked := st.trackersBlocked + 1 }, true)
    else
      Except.ok (st, false)

/-- Does an `Except`-valued computation end in an uncaught exception? -/
def isError {α : Type} (e : Except String α) : Bool :=
  match e with
  | Except.error _ => true
  | Except.ok _ => false

/-! ## CPU-usage sampling (`monitorCPUUsage`) -/

/-- Terminal and non-terminal outcomes of the CPU sampling loop:
`anomalyFound` = a window completed fewer than 50 iterations and the
`high_cpu_usage` threat was reported; `capReached` = 10 windows
completed with no anomaly, loop stopped silently; `inputExhausted` =
the page went away before either (fewer windows elapsed). -/
inductive CPUOutcome where
  | anomalyFound
  | capReached
  | inputExhausted
deriving Repr, DecidableEq

/-- The per-window state machine of `monitorCPUUsage`, driven by the
iteration count observed at each elapsed one-second window.
`checkCount` mirrors the source variable of the same name.  Per window:
`checkCount++`; if the window completed fewer than 50 iterations,
report and stop; else if `checkCount >= 10` (`maxChecks`), stop
silently.  Returns the outcome and the number of windows consumed. -/
def monitorCPUUsage : List Nat → Nat → CPUOutcome × Nat
  | [], _ => (CPUOutcome.inputExhausted, 0)
  | w :: ws, checkCount =>
      if w < 50 then (CPUOutcome.anomalyFound, 1)
      else if checkCount + 1 ≥ 10 then (CPUOutcome.capReached, 1)
      else
        let r := monitorCPUUsage ws (checkCount + 1)
        (r.1, r.2 + 1)

/-- The number of leading windows with at least 50 iterations (the
index of the first anomalous window, or the list length if none). -/
def leadGood : List Nat → Nat
  | [] => 0
  | w :: ws => if w < 50 then 0 else leadGood ws + 1

/-! ## Specification-side reference definitions

These transcribe the spec's words (not the source) and are compared
with the source-derived definitions in the refinement theorems. -/

/-- The additive structural sub-score as the spec states it: 40 for an
IP-literal host (decisive), otherwise 20 for length > 100, plus 25 for
more than 4 host labels, plus 30 for a suspicious path pattern. -/
def structScoreSpec (u : URLParts) : Nat :=
  if isIPv4Literal u.hostname then 40
  else
    (if decide (u.href.length > 100) then 20 else 0) +
    (if decide ((splitOnDot u.hostname.data).length > 4) then 25 else 0) +
    (if hasSuspiciousPath u.pathname then 30 else 0)

/-- The FIRST matching reason among the structural checks, in check
order (IP literal, length, labels, path) — the description the claim
says the emitted threat carries. -/
def firstMatchingReason (u : URLParts) : String :=
  if isIPv4Literal u.hostname then "Uses IP address instead of domain name"
  else if decide (u.href.length > 100) then "Unusually long URL"
  else if decide ((splitOnDot u.hostname.data).length > 4) then "Too many subdomains"
  else if hasSuspiciousPath u.pathname then "Suspicious path pattern detected"
  else ""

/-- The LAST matching reason among the structural checks — the
description the code actually leaves in the result, since each later
matching check overwrites `reason`. -/
def lastMatchingReason (u : URLParts) : String :=
  if isIPv4Literal u.hostname then "Uses IP address instead of domain name"
  else if hasSuspiciousPath u.pathname then "Suspicious path pattern detected"
  else if decide ((splitOnDot u.hostname.data).length > 4) then "Too many subdomains"
  else if decide (u.href.length > 100) then "Unusually long URL"
  else ""

/-! ## Concrete inputs used by counterexamples and witnesses -/

/-- Parsed form of `http://malicious-example.com/verify-account`. -/
def uRiskOver : URLParts :=
  ⟨"http://malicious-example.com/verify-account", "malicious-example.com", "/verify-account"⟩

/-- Parsed form of `http://malicious-example.com/`. -/
def uMalicious : URLParts :=
  ⟨"http://malicious-example.com/", "malicious-example.com", "/"⟩

/-- Settings with the malicious-site and phishing detector categories
switched off. -/
def settingsDetectorsOff : Settings :=
  { defaultSettings with blockMaliciousSites := false, blockPhishing := false }

/-- Settings with tracker blocking switched off. -/
def settingsNoTrackers : Settings :=
  { defaultSettings with blockTrackers := false }

/-- Parsed form of `http://192.168.1.10/anything`. -/
def uIPLiteral : URLParts :=
  ⟨"http://192.168.1.10/anything", "192.168.1.10", "/anything"⟩

/-- Parsed form of `http://192.168.1.10/x`. -/
def uIPShort : URLParts :=
  ⟨"http://192.168.1.10/x", "192.168.1.10", "/x"⟩

/-- A benign parsed URL, `http://example.com/`. -/
def uBenign : URLParts :=
  ⟨"http://example.com/", "example.com", "/"⟩

/-- Parsed form of `https://googletagmanager.com/gtm.js`. -/
def uTagManager : URLParts :=
  ⟨"https://googletagmanager.com/gtm.js", "googletagmanager.com", "/gtm.js"⟩

/-- A long (> 100 characters) URL whose path also matches the
`/verify.*account/i` pattern, so that two structural checks fire. -/
def longSuspiciousPath : String :=
  "/verify-" ++ String.mk (List.replicate 80 'a') ++ "-account"

/-- Parsed form of the long suspicious-path URL on `example.com`. -/
def uLongPath : URLParts :=
  ⟨"http://example.com" ++ longSuspiciousPath, "example.com", longSuspiciousPath⟩

/-- Parsed form of `chrome://settings`. -/
def uChrome : URLParts :=
  ⟨"chrome://settings", "settings", ""⟩

/-! ## Helper lemmas -/

/-- Full characterization of `analyzeURLStructure`: it fires iff one of
the four checks fires, carries the LAST matching reason, and scores the
additive sub-score. -/
theorem analyzeURLStructure_eq (u : URLParts) :
    analyzeURLStructure u =
      ⟨isIPv4Literal u.hostname || decide (u.href.length > 100) ||
         decide ((splitOnDot u.hostname.data).length > 4) || hasSuspiciousPath u.pathname,
       lastMatchingReason u, structScoreSpec u⟩ := by
  unfold analyzeURLStructure lastMatchingReason structScoreSpec
  cases hip : isIPv4Literal u.hostname
  · cases hlong : decide (u.href.length > 100) <;>
    cases hlab : decide ((splitOnDot u.hostname.data).length > 4) <;>
    cases hpath : hasSuspiciousPath u.pathname <;>
      simp [hip, hlong, hlab, hpath]
  · simp [hip]

/-- The structural sub-score never exceeds 75 (= 20 + 25 + 30; the
IP-literal branch scores 40). -/
theorem structScoreSpec_le (u : URLParts) : structScoreSpec u ≤ 75 := by
  unfold structScoreSpec
  split
  · omega
  · split <;> split <;> split <;> omega

/-- Full characterization of a non-skipped `analyzeURL` run: the stats
deltas and the produced analysis, as functions of the three detector
verdicts. -/
theorem analyzeURL_run (s : Settings) (st : Stats) (url : String) (u : URLParts)
    (h1 : strStartsWith url "chrome://" = false)
    (h2 : strStartsWith url "chrome-extension://" = false) :
    analyzeURL s st url (some u) =
      ({ sitesScanned := st.sitesScanned + 1,
         threatsBlocked := st.threatsBlocked +
           (if maliciousDomains.contains (strLower u.hostname) then 1 else 0) +
           (if (detectPhishing (strLower u.hostname)).isPhishing then 1 else 0),
         trackersBlocked := st.trackersBlocked,
         malwareDetected := st.malwareDetected +
           (if maliciousDomains.contains (strLower u.hostname) then 1 else 0),
         phishingBlocked := st.phishingBlocked +
           (if (detectPhishing (strLower u.hostname)).isPhishing then 1 else 0) },
       some { url := url, domain := strLower u.hostname,
              threats :=
                (if maliciousDomains.contains (strLower u.hostname) then
                  [⟨ThreatType.malicious_domain, Severity.high,
                    "Known malicious domain: " ++ strLower u.hostname⟩]
                 else []) ++
                (if (detectPhishing (strLower u.hostname)).isPhishing then
                  [⟨ThreatType.phishing, Severity.high,
                    (detectPhishing (strLower u.hostname)).reason⟩]
                 else []) ++
                (if (analyzeURLStructure u).suspicious then
                  [⟨ThreatType.suspicious_url, Severity.medium, (analyzeURLStructure u).reason⟩]
                 else []),
              riskScore :=
                (if maliciousDomains.contains (strLower u.hostname) then 80 else 0) +
                (if (detectPhishing (strLower u.hostname)).isPhishing then 70 else 0) +
                (if (analyzeURLStructure u).suspicious then (analyzeURLStructure u).score else 0),
              trackersBlocked := 0,
              isSecure := decide
                ((if maliciousDomains.contains (strLower u.hostname) then 80 else 0) +
                 (if (detectPhishing (strLower u.hostname)).isPhishing then 70 else 0) +
                 (if (analyzeURLStructure u).suspicious then (analyzeURLStructure u).score else 0)
                   < 30) }) := by
  unfold analyzeURL
  rw [h1, h2]
  cases hm : maliciousDomains.contains (strLower u.hostname) <;>
  cases hp : (detectPhishing (strLower u.hostname)).isPhishing <;>
  cases hs : (analyzeURLStructure u).suspicious <;>
    simp only [hm, hp, hs] <;> simp

/-- Characterization of the CPU sampling loop, generalized over the
starting `checkCount`: with `10 - cc` windows of budget left, the loop
reports the first sub-50 window if it arrives within budget, stops
silently when the budget is exhausted, and otherwise runs off the end
of the input. -/
theorem monitorCPUUsage_char (ws : List Nat) : ∀ cc : Nat, cc < 10 →
    monitorCPUUsage ws cc =
      (if leadGood ws < 10 - cc ∧ leadGood ws < ws.length then
        (CPUOutcome.anomalyFound, leadGood ws + 1)
      else if 10 - cc ≤ leadGood ws then (CPUOutcome.capReached, 10 - cc)
      else (CPUOutcome.inputExhausted, ws.length)) := by
  induction ws with
  | nil =>
      intro cc hcc
      have h1 : ¬(leadGood ([] : List Nat) < 10 - cc ∧
          leadGood ([] : List Nat) < ([] : List Nat).length) := by
        simp [leadGood]
      have h2 : ¬(10 - cc ≤ leadGood ([] : List Nat)) := by
        simp only [leadGood]
        omega
      simp only [monitorCPUUsage]
      rw [if_neg h1, if_neg h2]
      simp
  | cons w ws ih =>
      intro cc hcc
      by_cases hw : w < 50
      · have hlg : leadGood (w :: ws) = 0 := by simp [leadGood, hw]
        simp only [monitorCPUUsage]
        rw [if_pos hw, hlg]
        have hc : (0 < 10 - cc ∧ 0 < (w :: ws).length) := by
          refine ⟨by omega, by simp⟩
        rw [if_pos hc]
      · have hlg : leadGood (w :: ws) = leadGood ws + 1 := by simp [leadGood, hw]
        simp only [monitorCPUUsage]
        rw [if_neg hw]
        by_cases hcap : cc + 1 ≥ 10
        · rw [if_pos hcap, hlg]
          have hfail : ¬(leadGood ws + 1 < 10 - cc ∧ leadGood ws + 1 < (w :: ws).length) := by
            intro h
            omega
          rw [if_neg hfail, if_pos (by omega)]
          have hone : 10 - cc = 1 := by omega
          rw [hone]
        · rw [if_neg hcap]
          rw [ih (cc + 1) (by omega)]
          rw [hlg]
          simp only [List.length_cons]
          by_cases ha : leadGood ws < 10 - (cc + 1) ∧ leadGood ws < ws.length
          · rw [if_pos ha, if_pos (by omega)]
          · rw [if_neg ha]
            by_cases hb : 10 - (cc + 1) ≤ leadGood ws
            · rw [if_pos hb, if_neg (by omega), if_pos (by omega)]
              simp
              omega
            · rw [if_neg hb, if_neg (by omega), if_neg (by omega)]

/-- The structural sub-score the code computes is the additive
sub-score of the spec. -/
theorem analyzeURLStructure_score (u : URLParts) :
    (analyzeURLStructure u).score = structScoreSpec u := by
  rw [analyzeURLStructure_eq]

/-! ## Claim theorems -/

/-- C1 (counterexample): evaluating
`http://malicious-example.com/verify-account` yields risk score 110
(malicious domain 80 + suspicious path 30), strictly above 100 — the
risk score is NOT clamped to [0,100]. -/
theorem c1_counterexample :
    riskOf (analyzeURL defaultSettings initialStats
      "http://malicious-example.com/verify-account" (some uRiskOver)) = 110 ∧
    100 < riskOf (analyzeURL defaultSettings initialStats
      "http://malicious-example.com/verify-account" (some uRiskOver)) := by
  exact ⟨by decide, by decide⟩

/-- C1 (amended): the risk score of a produced `AnalysisResult` is the
plain (unclamped) sum of the detector contributions — 80 for a
malicious domain, 70 for phishing, plus the structural sub-score — and
is therefore bounded by 225, but not by 100. -/
theorem c1_risk_unclamped (s : Settings) (st : Stats) (url : String) (u : URLParts)
    (a : Analysis) (h : (analyzeURL s st url (some u)).2 = some a) :
    a.riskScore =
      (if maliciousDomains.contains (strLower u.hostname) then 80 else 0) +
      (if (detectPhishing (strLower u.hostname)).isPhishing then 70 else 0) +
      (if (analyzeURLStructure u).suspicious then (analyzeURLStructure u).score else 0) ∧
    a.riskScore ≤ 225 := by
  cases h1 : strStartsWith url "chrome://"
  · cases h2 : strStartsWith url "chrome-extension://"
    · rw [analyzeURL_run s st url u h1 h2] at h
      simp only [Option.some.injEq] at h
      subst h
      constructor
      · rfl
      · have hsc : (analyzeURLStructure u).score = structScoreSpec u :=
          analyzeURLStructure_score u
        have hle := structScoreSpec_le u
        show (if maliciousDomains.contains (strLower u.hostname) then 80 else 0) +
          (if (detectPhishing (strLower u.hostname)).isPhishing then 70 else 0) +
          (if (analyzeURLStructure u).suspicious then (analyzeURLStructure u).score else 0) ≤ 225
        rw [hsc]
        split <;> split <;> split <;> omega
    · unfold analyzeURL at h
      simp [h1, h2] at h
  · cases h2 : strStartsWith url "chrome-extension://" <;>
      (unfold analyzeURL at h; simp [h1, h2] at h)

/-- C1 (witness): the amended claim at the benign URL
`http://example.com/`, whose risk score is 0. -/
theorem c1_witness :
    (analyzeURL defaultSettings initialStats "http://example.com/" (some uBenign)).2 =
      some ⟨"http://example.com/", "example.com", [], 0, 0, true⟩ ∧
    ((⟨"http://example.com/", "example.com", [], 0, 0, true⟩ : Analysis).riskScore =
      (if maliciousDomains.contains (strLower uBenign.hostname) then 80 else 0) +
      (if (detectPhishing (strLower uBenign.hostname)).isPhishing then 70 else 0) +
      (if (analyzeURLStructure uBenign).suspicious then (analyzeURLStructure uBenign).score
       else 0) ∧
    (⟨"http://example.com/", "example.com", [], 0, 0, true⟩ : Analysis).riskScore ≤ 225) :=
  ⟨by decide,
   c1_risk_unclamped defaultSettings initialStats "http://example.com/" uBenign
     ⟨"http://example.com/", "example.com", [], 0, 0, true⟩ (by decide)⟩

/-- C2 (code bug): with `blockMaliciousSites` and `blockPhishing`
switched off, `analyzeURL` still produces the `malicious_domain`
threat and its full 80-point contribution for
`http://malicious-example.com/` — the result is identical to the run
with all detectors enabled.  The detector toggles are never read by
the evaluation, contradicting their documented purpose. -/
theorem c2_detector_toggles_ignored :
    analyzeURL settingsDetectorsOff initialStats "http://malicious-example.com/"
        (some uMalicious) =
      analyzeURL defaultSettings initialStats "http://malicious-example.com/"
        (some uMalicious) ∧
    (threatsOf (analyzeURL settingsDetectorsOff initialStats "http://malicious-example.com/"
        (some uMalicious))).map Threat.type = [ThreatType.malicious_domain] ∧
    riskOf (analyzeURL settingsDetectorsOff initialStats "http://malicious-example.com/"
        (some uMalicious)) = 80 := by
  exact ⟨rfl, by decide, by decide⟩

/-- C3 (counterexample): the phishing detector does NOT flag host
`paypa1-login.com`: the brand-impersonation branch requires the host to
contain the literal token `paypal` before any substitution is tried,
and no other sub-check fires. -/
theorem c3_counterexample :
    (detectPhishing "paypa1-login.com").isPhishing = false := by
  decide

/-- C3 (amended): the phishing detector flags none of
`paypa1-login.com`, `paypal.com` and `accounts.paypal.com`: the first
lacks the literal `paypal` substring the brand check requires, and the
other two contain the canonical suffix `paypal.com`. -/
theorem c3_brand_hosts :
    (detectPhishing "paypa1-login.com").isPhishing = false ∧
    (detectPhishing "paypal.com").isPhishing = false ∧
    (detectPhishing "accounts.paypal.com").isPhishing = false := by
  exact ⟨by decide, by decide, by decide⟩

/-- C4 (counterexample): evaluating `http://192.168.1.10/x` produces a
result with one threat (a `suspicious_url`), yet `threatsBlocked` is
NOT incremented — the counter is not "+1 per threat present". -/
theorem c4_counterexample :
    (threatsOf (analyzeURL defaultSettings initialStats "http://192.168.1.10/x"
        (some uIPShort))).length = 1 ∧
    (analyzeURL defaultSettings initialStats "http://192.168.1.10/x"
        (some uIPShort)).1.threatsBlocked = initialStats.threatsBlocked := by
  exact ⟨by decide, by decide⟩

/-- C4 (amended): on each completed evaluation, `sitesScanned += 1`;
`threatsBlocked += 1` once for a `malicious_domain` threat and once for
a `phishing` threat, but NOT for `suspicious_url` threats;
`malwareDetected += 1` iff a `malicious_domain` threat is present;
`phishingBlocked += 1` iff a `phishing` threat is present;
`trackersBlocked` is untouched. -/
theorem c4_stats_update (s : Settings) (st : Stats) (url : String) (u : URLParts)
    (a : Analysis)
    (h1 : strStartsWith url "chrome://" = false)
    (h2 : strStartsWith url "chrome-extension://" = false)
    (h : (analyzeURL s st url (some u)).2 = some a) :
    (analyzeURL s st url (some u)).1.sitesScanned = st.sitesScanned + 1 ∧
    (analyzeURL s st url (some u)).1.malwareDetected = st.malwareDetected +
      (if a.threats.any (fun t => decide (t.type = ThreatType.malicious_domain)) then 1
       else 0) ∧
    (analyzeURL s st url (some u)).1.phishingBlocked = st.phishingBlocked +
      (if a.threats.any (fun t => decide (t.type = ThreatType.phishing)) then 1 else 0) ∧
    (analyzeURL s st url (some u)).1.threatsBlocked = st.threatsBlocked +
      (if a.threats.any (fun t => decide (t.type = ThreatType.malicious_domain)) then 1
       else 0) +
      (if a.threats.any (fun t => decide (t.type = ThreatType.phishing)) then 1 else 0) ∧
    (analyzeURL s st url (some u)).1.trackersBlocked = st.trackersBlocked := by
  rw [analyzeURL_run s st url u h1 h2] at h ⊢
  simp only [Option.some.injEq] at h
  subst h
  cases hm : maliciousDomains.contains (strLower u.hostname) <;>
  cases hp : (detectPhishing (strLower u.hostname)).isPhishing <;>
  cases hs : (analyzeURLStructure u).suspicious <;>
    simp only [hm, hp, hs] <;> simp

/-- C4 (witness): the amended claim at the benign URL
`http://example.com/` (no threats; only `sitesScanned` moves). -/
theorem c4_witness :
    strStartsWith "http://example.com/" "chrome://" = false ∧
    strStartsWith "http://example.com/" "chrome-extension://" = false ∧
    (analyzeURL defaultSettings initialStats "http://example.com/" (some uBenign)).2 =
      some ⟨"http://example.com/", "example.com", [], 0, 0, true⟩ ∧
    ((analyzeURL defaultSettings initialStats "http://example.com/"
        (some uBenign)).1.sitesScanned = initialStats.sitesScanned + 1 ∧
     (analyzeURL defaultSettings initialStats "http://example.com/"
        (some uBenign)).1.malwareDetected = initialStats.malwareDetected +
       (if (⟨"http://example.com/", "example.com", [], 0, 0, true⟩ : Analysis).threats.any
            (fun t => decide (t.type = ThreatType.malicious_domain)) then 1 else 0) ∧
     (analyzeURL defaultSettings initialStats "http://example.com/"
        (some uBenign)).1.phishingBlocked = initialStats.phishingBlocked +
       (if (⟨"http://example.com/", "example.com", [], 0, 0, true⟩ : Analysis).threats.any
            (fun t => decide (t.type = ThreatType.phishing)) then 1 else 0) ∧
     (analyzeURL defaultSettings initialStats "http://example.com/"
        (some uBenign)).1.threatsBlocked = initialStats.threatsBlocked +
       (if (⟨"http://example.com/", "example.com", [], 0, 0, true⟩ : Analysis).threats.any
            (fun t => decide (t.type = ThreatType.malicious_domain)) then 1 else 0) +
       (if (⟨"http://example.com/", "example.com", [], 0, 0, true⟩ : Analysis).threats.any
            (fun t => decide (t.type = ThreatType.phishing)) then 1 else 0) ∧
     (analyzeURL defaultSettings initialStats "http://example.com/"
        (some uBenign)).1.trackersBlocked = initialStats.trackersBlocked) :=
  ⟨by decide, by decide, by decide,
   c4_stats_update defaultSettings initialStats "http://example.com/" uBenign
     ⟨"http://example.com/", "example.com", [], 0, 0, true⟩
     (by decide) (by decide) (by decide)⟩

/-- C5: an outbound request is blocked (cancelled, with
`trackersBlocked` incremented) precisely when `blockTrackers` is on AND
the lower-cased host is in the tracker-domain set or matches a tracker
regex; otherwise it is allowed and the stats are untouched. -/
theorem c5_tracker_gating (s : Settings) (st : Stats) (url : String) (u : URLParts) :
    (analyzeRequest s st url (some u) =
        Except.ok ({ st with trackersBlocked := st.trackersBlocked + 1 }, true) ↔
      (s.blockTrackers = true ∧ (trackerDomains.contains (strLower u.hostname) = true ∨
        isKnownTracker (strLower u.hostname) = true))) ∧
    (analyzeRequest s st url (some u) = Except.ok (st, false) ↔
      (s.blockTrackers = false ∨ (trackerDomains.contains (strLower u.hostname) = false ∧
        isKnownTracker (strLower u.hostname) = false))) := by
  cases hb : s.blockTrackers <;>
  cases hd : trackerDomains.contains (strLower u.hostname) <;>
  cases hk : isKnownTracker (strLower u.hostname) <;>
    simp only [analyzeRequest, hb, hd, hk] <;> simp

/-- C5 (witness): a request to `googletagmanager.com` with
`blockTrackers = false` is allowed and no counter moves. -/
theorem c5_witness :
    analyzeRequest settingsNoTrackers initialStats "https://googletagmanager.com/gtm.js"
      (some uTagManager) = Except.ok (initialStats, false) :=
  (c5_tracker_gating settingsNoTrackers initialStats "https://googletagmanager.com/gtm.js"
    uTagManager).2.mpr (Or.inl rfl)

/-- C6 (counterexample): a malformed URL handed to the outbound-request
classifier `analyzeRequest` ends in an uncaught exception — the parse
sits outside any try/catch, so the exception propagates out of the
engine, contrary to the claim. -/
theorem c6_counterexample :
    isError (analyzeRequest defaultSettings initialStats "not a valid url" none) = true := by
  decide

/-- C6 (amended): a malformed URL makes `analyzeURL` abandon the whole
evaluation with no exception escaping and no state change (its body is
inside try/catch), while `analyzeRequest` propagates the parse
exception to its caller. -/
theorem c6_error_containment (s : Settings) (st : Stats) (url : String) :
    analyzeURL s st url none = (st, none) ∧
    isError (analyzeRequest s st url none) = true :=
  ⟨rfl, rfl⟩

/-- C7: an IPv4-literal host makes the structural analyzer return
immediately with score exactly 40 and the reason "Uses IP address
instead of domain name"; the evaluation then carries exactly one
`suspicious_url` threat and exactly 40 structural points in the risk
score, regardless of URL length, label count or path. -/
theorem c7_ip_short_circuit (s : Settings) (st : Stats) (url : String) (u : URLParts)
    (hip : isIPv4Literal u.hostname = true)
    (h1 : strStartsWith url "chrome://" = false)
    (h2 : strStartsWith url "chrome-extension://" = false) :
    analyzeURLStructure u = ⟨true, "Uses IP address instead of domain name", 40⟩ ∧
    (threatsOf (analyzeURL s st url (some u))).filter
        (fun t => decide (t.type = ThreatType.suspicious_url)) =
      [⟨ThreatType.suspicious_url, Severity.medium,
        "Uses IP address instead of domain name"⟩] ∧
    riskOf (analyzeURL s st url (some u)) =
      (if maliciousDomains.contains (strLower u.hostname) then 80 else 0) +
      (if (detectPhishing (strLower u.hostname)).isPhishing then 70 else 0) + 40 := by
  have hstruct : analyzeURLStructure u =
      ⟨true, "Uses IP address instead of domain name", 40⟩ := by
    unfold analyzeURLStructure
    rw [if_pos hip]
  have hrun := analyzeURL_run s st url u h1 h2
  refine ⟨hstruct, ?_, ?_⟩
  · simp only [threatsOf, hrun, hstruct]
    cases hm : maliciousDomains.contains (strLower u.hostname) <;>
    cases hp : (detectPhishing (strLower u.hostname)).isPhishing <;>
      simp [hm, hp]
  · simp only [riskOf, hrun, hstruct]
    simp

/-- C7 (witness): `http://192.168.1.10/anything` yields the single
`suspicious_url` threat with 40 structural points. -/
theorem c7_witness :
    isIPv4Literal uIPLiteral.hostname = true ∧
    strStartsWith "http://192.168.1.10/anything" "chrome://" = false ∧
    strStartsWith "http://192.168.1.10/anything" "chrome-extension://" = false ∧
    (analyzeURLStructure uIPLiteral =
        ⟨true, "Uses IP address instead of domain name", 40⟩ ∧
     (threatsOf (analyzeURL defaultSettings initialStats "http://192.168.1.10/anything"
          (some uIPLiteral))).filter
         (fun t => decide (t.type = ThreatType.suspicious_url)) =
       [⟨ThreatType.suspicious_url, Severity.medium,
         "Uses IP address instead of domain name"⟩] ∧
     riskOf (analyzeURL defaultSettings initialStats "http://192.168.1.10/anything"
          (some uIPLiteral)) =
       (if maliciousDomains.contains (strLower uIPLiteral.hostname) then 80 else 0) +
       (if (detectPhishing (strLower uIPLiteral.hostname)).isPhishing then 70 else 0) + 40) :=
  ⟨by decide, by decide, by decide,
   c7_ip_short_circuit defaultSettings initialStats "http://192.168.1.10/anything"
     uIPLiteral (by decide) (by decide) (by decide)⟩

/-- C8 (counterexample): for a URL that is both unusually long and has
a suspicious path, the emitted description is "Suspicious path pattern
detected" — the LAST matching reason — while the first matching reason
is "Unusually long URL". -/
theorem c8_counterexample :
    firstMatchingReason uLongPath = "Unusually long URL" ∧
    analyzeURLStructure uLongPath = ⟨true, "Suspicious path pattern detected", 50⟩ := by
  exact ⟨by decide, by decide⟩

/-- C8 (amended): when the structural sub-score is positive, the
analyzer emits exactly one `suspicious_url` threat, of medium severity,
whose description is the LAST matching reason among the structural
checks and whose score contribution is the additive sub-score. -/
theorem c8_last_reason (s : Settings) (st : Stats) (url : String) (u : URLParts)
    (hsusp : (analyzeURLStructure u).suspicious = true)
    (h1 : strStartsWith url "chrome://" = false)
    (h2 : strStartsWith url "chrome-extension://" = false) :
    analyzeURLStructure u = ⟨true, lastMatchingReason u, structScoreSpec u⟩ ∧
    (threatsOf (analyzeURL s st url (some u))).filter
        (fun t => decide (t.type = ThreatType.suspicious_url)) =
      [⟨ThreatType.suspicious_url, Severity.medium, lastMatchingReason u⟩] ∧
    riskOf (analyzeURL s st url (some u)) =
      (if maliciousDomains.contains (strLower u.hostname) then 80 else 0) +
      (if (detectPhishing (strLower u.hostname)).isPhishing then 70 else 0) +
      structScoreSpec u := by
  have hfire : (isIPv4Literal u.hostname || decide (u.href.length > 100) ||
      decide ((splitOnDot u.hostname.data).length > 4) ||
      hasSuspiciousPath u.pathname) = true := by
    rw [analyzeURLStructure_eq] at hsusp
    exact hsusp
  have hstruct : analyzeURLStructure u =
      ⟨true, lastMatchingReason u, structScoreSpec u⟩ := by
    rw [analyzeURLStructure_eq, hfire]
  have hrun := analyzeURL_run s st url u h1 h2
  refine ⟨hstruct, ?_, ?_⟩
  · simp only [threatsOf, hrun, hstruct]
    cases hm : maliciousDomains.contains (strLower u.hostname) <;>
    cases hp : (detectPhishing (strLower u.hostname)).isPhishing <;>
      simp [hm, hp]
  · simp only [riskOf, hrun, hstruct]
    simp

/-- C8 (witness): the amended claim at the long suspicious-path URL
(sub-score 20 + 30 = 50, description = last matching reason). -/
theorem c8_witness :
    (analyzeURLStructure uLongPath).suspicious = true ∧
    strStartsWith uLongPath.href "chrome://" = false ∧
    strStartsWith uLongPath.href "chrome-extension://" = false ∧
    (analyzeURLStructure uLongPath =
        ⟨true, lastMatchingReason uLongPath, structScoreSpec uLongPath⟩ ∧
     (threatsOf (analyzeURL defaultSettings initialStats uLongPath.href
          (some uLongPath))).filter
         (fun t => decide (t.type = ThreatType.suspicious_url)) =
       [⟨ThreatType.suspicious_url, Severity.medium, lastMatchingReason uLongPath⟩] ∧
     riskOf (analyzeURL defaultSettings initialStats uLongPath.href (some uLongPath)) =
       (if maliciousDomains.contains (strLower uLongPath.hostname) then 80 else 0) +
       (if (detectPhishing (strLower uLongPath.hostname)).isPhishing then 70 else 0) +
       structScoreSpec uLongPath) :=
  ⟨by decide, by decide, by decide,
   c8_last_reason defaultSettings initialStats uLongPath.href uLongPath
     (by decide) (by decide) (by decide)⟩

/-- C9: the CPU-sampling loop consumes at most 10 windows; it stops
with `anomalyFound` right after the first window with fewer than 50
iterations when one occurs among the first 10 windows (`leadGood ws`
is the index of that first anomalous window), and stops silently with
`capReached` after exactly 10 windows when the first 10 windows are
all at or above threshold. -/
theorem c9_cpu_bounded (ws : List Nat) :
    (monitorCPUUsage ws 0).2 ≤ 10 ∧
    (leadGood ws < 10 → leadGood ws < ws.length →
      monitorCPUUsage ws 0 = (CPUOutcome.anomalyFound, leadGood ws + 1)) ∧
    (10 ≤ leadGood ws → monitorCPUUsage ws 0 = (CPUOutcome.capReached, 10)) := by
  have h := monitorCPUUsage_char ws 0 (by omega)
  simp only [Nat.sub_zero] at h
  refine ⟨?_, ?_, ?_⟩
  · rw [h]
    by_cases hc1 : leadGood ws < 10 ∧ leadGood ws < ws.length
    · rw [if_pos hc1]
      show leadGood ws + 1 ≤ 10
      omega
    · rw [if_neg hc1]
      by_cases hc2 : 10 ≤ leadGood ws
      · rw [if_pos hc2]
      · rw [if_neg hc2]
        show ws.length ≤ 10
        omega
  · intro hlt hlen
    rw [h, if_pos ⟨hlt, hlen⟩]
  · intro hge
    rw [h, if_neg (by omega), if_pos hge]

/-- C9 (witness): the trace 60, 60, 40 stops with the anomaly after 3
windows; twelve 60-iteration windows stop silently at the 10-window
cap. -/
theorem c9_witness :
    (monitorCPUUsage [60, 60, 40] 0).2 ≤ 10 ∧
    leadGood [60, 60, 40] < 10 ∧
    leadGood [60, 60, 40] < ([60, 60, 40] : List Nat).length ∧
    monitorCPUUsage [60, 60, 40] 0 = (CPUOutcome.anomalyFound, leadGood [60, 60, 40] + 1) ∧
    10 ≤ leadGood (List.replicate 12 60) ∧
    monitorCPUUsage (List.replicate 12 60) 0 = (CPUOutcome.capReached, 10) :=
  ⟨(c9_cpu_bounded [60, 60, 40]).1, by decide, by decide,
   (c9_cpu_bounded [60, 60, 40]).2.1 (by decide) (by decide),
   by decide,
   (c9_cpu_bounded (List.replicate 12 60)).2.2 (by decide)⟩

/-- C10: a navigation URL beginning with `chrome://` or
`chrome-extension://` is skipped: `analyzeURL` returns no analysis and
leaves every stats counter (including `sitesScanned`) unchanged. -/
theorem c10_chrome_skip (s : Settings) (st : Stats) (url : String)
    (parsed : Option URLParts)
    (h : strStartsWith url "chrome://" = true ∨
      strStartsWith url "chrome-extension://" = true) :
    analyzeURL s st url parsed = (st, none) := by
  cases parsed with
  | none => rfl
  | some u =>
      unfold analyzeURL
      rcases h with h | h <;> simp [h]

/-- C10 (witness): `chrome://settings` is skipped with the stats
untouched. -/
theorem c10_witness :
    strStartsWith "chrome://settings" "chrome://" = true ∧
    analyzeURL defaultSettings initialStats "chrome://settings" (some uChrome) =
      (initialStats, none) :=
  ⟨by decide,
   c10_chrome_skip defaultSettings initialStats "chrome://settings" (some uChrome)
     (Or.inl (by decide))⟩
